import Mathlib

/-!
Shallow embedding of the `apopy` Apollo configuration client
(`src/apopy/__init__.py`), used to check the natural-language
specification against the code.

Modelling conventions:
* Python `str` is Lean `String`; Python slicing is by code point, modelled
  on `String.data` (a `List Char`).
* Python `bytes` is `List Nat` (each entry `< 256`); 32-bit words are `Nat`
  reduced `% 2^32` where overflow matters.
* Python `dict` is an insertion-ordered association list
  `List (String × α)`; assignment `d[k] = v` replaces in place when the key
  exists and appends otherwise (`dictInsert`).
* The HTTP transport is abstracted by `ApoServer`, which gives the response
  (status code, raw body text, parsed JSON payload) each endpoint returns
  for a request; JSON decoding of well-formed bodies is abstracted by using
  the parsed payload directly. Each client operation returns, besides its
  result, the list of HTTP requests it issued (`ReadEvent`), in order.
* Wall-clock time (`time.time()`) is nondeterministic and is passed as an
  explicit millisecond-string argument to the header-building functions.
* Python exceptions are `Except ApoError`; an operation that raises returns
  `.error` together with the client state at the moment of the raise.
-/

/-! ### Bytes, 32-bit words, SHA-1, HMAC, base64 (CPython `hashlib`/`hmac`/`base64` behaviour) -/

/-- Reduce to a 32-bit word. -/
def w32 (x : Nat) : Nat := x % 4294967296

/-- Rotate a 32-bit word left by `n` bits (`0 < n < 32`, `x < 2^32`). -/
def rotl (n x : Nat) : Nat := w32 (x <<< n) ||| (x >>> (32 - n))

/-- Big-endian 8-byte encoding of a length in bits (SHA-1 padding tail). -/
def be64 (n : Nat) : List Nat :=
  [(n >>> 56) % 256, (n >>> 48) % 256, (n >>> 40) % 256, (n >>> 32) % 256,
   (n >>> 24) % 256, (n >>> 16) % 256, (n >>> 8) % 256, n % 256]

/-- SHA-1 padding: append `0x80`, zero bytes to 56 mod 64, then the bit length. -/
def sha1pad (msg : List Nat) : List Nat :=
  let len := msg.length
  let padZeros := (55 + 64 - len % 64) % 64
  msg ++ [128] ++ List.replicate padZeros 0 ++ be64 (len * 8)

/-- Group bytes into big-endian 32-bit words. -/
def bytesToWords : List Nat → List Nat
  | a :: b :: c :: d :: rest =>
      (a * 16777216 + b * 65536 + c * 256 + d) :: bytesToWords rest
  | _ => []

/-- Split a word list into 16-word blocks (fuel-based so that it reduces
in the kernel; `l.length` steps always suffice). -/
def chunks16fuel : Nat → List Nat → List (List Nat)
  | 0, _ => []
  | _, [] => []
  | fuel + 1, x :: xs => ((x :: xs).take 16) :: chunks16fuel fuel (xs.drop 15)

/-- Split a word list into 16-word blocks. -/
def chunks16 (l : List Nat) : List (List Nat) := chunks16fuel l.length l

/-- Extend a 16-word block by `k` further schedule words. -/
def extendW : Nat → List Nat → List Nat
  | 0, ws => ws
  | k + 1, ws =>
      let i := ws.length
      let w := rotl 1 ((ws.getD (i - 3) 0) ^^^ (ws.getD (i - 8) 0) ^^^
                       (ws.getD (i - 14) 0) ^^^ (ws.getD (i - 16) 0))
      extendW k (ws ++ [w])

/-- The 80-word SHA-1 message schedule of one block. -/
def sha1schedule (block : List Nat) : List Nat := extendW 64 block

/-- SHA-1 round function. -/
def sha1f (i b c d : Nat) : Nat :=
  if i < 20 then (b &&& c) ||| ((b ^^^ 4294967295) &&& d)
  else if i < 40 then b ^^^ c ^^^ d
  else if i < 60 then (b &&& c) ||| (b &&& d) ||| (c &&& d)
  else b ^^^ c ^^^ d

/-- SHA-1 round constants. -/
def sha1k (i : Nat) : Nat :=
  if i < 20 then 1518500249
  else if i < 40 then 1859775393
  else if i < 60 then 2400959708
  else 3395469782

/-- One SHA-1 round: state is `(round index, a, b, c, d, e)`. -/
def sha1round (st : Nat × Nat × Nat × Nat × Nat × Nat) (w : Nat) :
    Nat × Nat × Nat × Nat × Nat × Nat :=
  let (i, a, b, c, d, e) := st
  let temp := w32 (rotl 5 a + sha1f i b c d + e + sha1k i + w)
  (i + 1, temp, a, rotl 30 b, c, d)

/-- SHA-1 compression of one 16-word block into the running digest. -/
def sha1compress (h : Nat × Nat × Nat × Nat × Nat) (block : List Nat) :
    Nat × Nat × Nat × Nat × Nat :=
  let (h0, h1, h2, h3, h4) := h
  let r := (sha1schedule block).foldl sha1round (0, h0, h1, h2, h3, h4)
  match r with
  | (_, a, b, c, d, e) =>
      (w32 (h0 + a), w32 (h1 + b), w32 (h2 + c), w32 (h3 + d), w32 (h4 + e))

/-- Big-endian bytes of one 32-bit word. -/
def wordBytes (w : Nat) : List Nat :=
  [(w >>> 24) % 256, (w >>> 16) % 256, (w >>> 8) % 256, w % 256]

/-- SHA-1 digest (20 bytes) of a byte string (`hashlib.sha1(msg).digest()`). -/
def sha1 (msg : List Nat) : List Nat :=
  let blocks := chunks16 (bytesToWords (sha1pad msg))
  let h := blocks.foldl sha1compress
    (1732584193, 4023233417, 2562383102, 271733878, 3285377520)
  match h with
  | (h0, h1, h2, h3, h4) =>
      wordBytes h0 ++ wordBytes h1 ++ wordBytes h2 ++ wordBytes h3 ++ wordBytes h4

/-- HMAC-SHA1 (`hmac.new(key, msg, hashlib.sha1).digest()`), block size 64. -/
def hmacSha1 (key msg : List Nat) : List Nat :=
  let k := if 64 < key.length then sha1 key else key
  let k0 := k ++ List.replicate (64 - k.length) 0
  let ipadKey := k0.map (fun b => b ^^^ 54)
  let opadKey := k0.map (fun b => b ^^^ 92)
  sha1 (opadKey ++ sha1 (ipadKey ++ msg))

/-- The standard base64 alphabet. -/
def b64chars : List Char :=
  "ABCDEFGHIJKLMNOPQRSTUVWXYZabcdefghijklmnopqrstuvwxyz0123456789+/".toList

/-- Character for one 6-bit group. -/
def b64c (n : Nat) : Char := b64chars.getD n 'A'

/-- Base64 encoding (standard alphabet, `=`-padded), as `base64.b64encode`. -/
def b64encode : List Nat → List Char
  | [] => []
  | [a] => [b64c (a >>> 2), b64c ((a % 4) <<< 4), '=', '=']
  | [a, b] => [b64c (a >>> 2), b64c (((a % 4) <<< 4) + (b >>> 4)),
               b64c ((b % 16) <<< 2), '=']
  | a :: b :: c :: rest =>
      b64c (a >>> 2) :: b64c (((a % 4) <<< 4) + (b >>> 4)) ::
      b64c (((b % 16) <<< 2) + (c >>> 6)) :: b64c (c % 64) :: b64encode rest

/-- Base64 encoding returned as a string (`...decode()`). -/
def b64encodeStr (bs : List Nat) : String := String.mk (b64encode bs)

/-- UTF-8 encoding of one code point. -/
def utf8Char (c : Char) : List Nat :=
  let n := c.toNat
  if n < 128 then [n]
  else if n < 2048 then [192 ||| (n >>> 6), 128 ||| (n &&& 63)]
  else if n < 65536 then
    [224 ||| (n >>> 12), 128 ||| ((n >>> 6) &&& 63), 128 ||| (n &&& 63)]
  else
    [240 ||| (n >>> 18), 128 ||| ((n >>> 12) &&& 63),
     128 ||| ((n >>> 6) &&& 63), 128 ||| (n &&& 63)]

/-- UTF-8 bytes of a string (Python `str.encode()`). -/
def utf8Bytes (s : String) : List Nat := (s.data.map utf8Char).flatten

/-! ### The `_signature` function (`src/apopy/__init__.py` lines 13-19) -/

/-- `_signature(timestamp, uri, secret)`: base64 of the HMAC-SHA1 digest,
keyed by the secret, of `timestamp + "\n" + uri`. -/
def _signature (timestamp uri secret : String) : String :=
  let string_to_sign := "" ++ timestamp ++ "\n" ++ uri
  let hmac_code := hmacSha1 (utf8Bytes secret) (utf8Bytes string_to_sign)
  b64encodeStr hmac_code

/-! ### Data model (`src/apopy/__init__.py` lines 22-66) -/

/-- `Configurations = Dict[str, str]`: one namespace's flat key/value mapping. -/
abbrev Configurations := List (String × String)

/-- The `NamespaceType` enumeration. -/
inductive NamespaceType
  | PROPERTIES
  | XML
  | JSON
  | YML
  | YAML
  | TXT
deriving DecidableEq, Repr

/-- The `.value` string of each `NamespaceType` member. -/
def NamespaceType.value : NamespaceType → String
  | .PROPERTIES => "properties"
  | .XML => "xml"
  | .JSON => "json"
  | .YML => "yml"
  | .YAML => "yaml"
  | .TXT => "txt"

/-- Python dict assignment `d[k] = v`: replace in place if `k` is present,
append otherwise. -/
def dictInsert {α : Type} : List (String × α) → String → α → List (String × α)
  | [], k, v => [(k, v)]
  | (k', v') :: rest, k, v =>
      if k' = k then (k, v) :: rest else (k', v') :: dictInsert rest k v

/-- Python dict lookup `d[k]` / `k in d` (first matching key). -/
def dictGet? {α : Type} : List (String × α) → String → Option α
  | [], _ => none
  | (k', v') :: rest, k => if k' = k then some v' else dictGet? rest k

/-- Python membership test `k in d`. -/
def dictContains {α : Type} (d : List (String × α)) (k : String) : Bool :=
  (dictGet? d k).isSome

/-- Python `d.get(key, default)` for a `Configurations` dict, where
`none` models Python `None`. -/
def pyGet (d : Configurations) (k : String) (default : Option String) :
    Option String :=
  match dictGet? d k with
  | some v => some v
  | none => default

/-- Python `str(x)` of an `Optional[str]`: `str.format` renders `None` as
the four characters `None`. -/
def pyStr : Option String → String
  | some s => s
  | none => "None"

/-- Python truthiness of an `Optional[str]` (`if not self.secret`):
`None` and the empty string are falsy. -/
def pyTruthy : Option String → Bool
  | none => false
  | some s => !(s = "")

/-- Client state: constructor parameters plus the two mutable dicts
(`self.cache` and `self.read_notification_cache`). The notification ids the
code actually stores and sends are JSON integers (the `str` annotation on
the dict notwithstanding), so they are modelled as `Int`. -/
structure Client where
  config_server_url : String
  app_id : String
  cluster_name : String
  ip : Option String
  secret : Option String
  timeout : Nat
  cache : List (String × Configurations)
  read_notification_cache : List (String × Int)
deriving DecidableEq, Repr

/-- Parsed JSON envelope of the `configs` (uncached) endpoint. -/
structure ConfigEnvelope where
  appId : String
  cluster : String
  namespaceName : String
  configurations : Configurations
  releaseKey : String
deriving DecidableEq, Repr

/-- One change notice of the `notifications/v2` long-poll response (the code
only ever reads its `notificationId` field). -/
structure NotificationMsg where
  namespaceName : String
  notificationId : Int
deriving DecidableEq, Repr

/-- An HTTP response as the code observes it: status code, raw body text,
and the parsed JSON payload (`r.json()`) of a well-formed body. -/
structure HttpResp (α : Type) where
  status_code : Nat
  text : String
  json : α
deriving DecidableEq, Repr

/-- The abstracted HTTP transport: what the server answers on each of the
three endpoints. `cachedResp`/`uncachedResp` are keyed by the namespace
identity of the request; `notifResp` by the polled namespace and the
notification id sent in the query string. -/
structure ApoServer where
  cachedResp : String → NamespaceType → HttpResp Configurations
  uncachedResp : String → NamespaceType → HttpResp ConfigEnvelope
  notifResp : String → Int → HttpResp (List NotificationMsg)

/-- A Python exception: `reqError` models
`Exception(f"failed: status_code=..., text=...")` carrying the status code
and raw body text; `keyError` models a `KeyError` on dict subscripting. -/
inductive ApoError
  | reqError (status_code : Nat) (text : String)
  | keyError (key : String)
deriving DecidableEq, Repr

instance {ε α : Type} [DecidableEq ε] [DecidableEq α] :
    DecidableEq (Except ε α) := fun a b =>
  match a, b with
  | .error e, .error f =>
      if h : e = f then isTrue (h ▸ rfl)
      else isFalse (fun hh => h (Except.error.inj hh))
  | .error _, .ok _ => isFalse (fun hh => Except.noConfusion hh)
  | .ok _, .error _ => isFalse (fun hh => Except.noConfusion hh)
  | .ok x, .ok y =>
      if h : x = y then isTrue (h ▸ rfl)
      else isFalse (fun hh => h (Except.ok.inj hh))

/-- One HTTP request issued by the client, recorded in order of issue. -/
inductive ReadEvent
  | cachedRead (ns : String) (nt : NamespaceType)
  | uncachedRead (ns : String) (nt : NamespaceType)
  | notifPoll (ns : String) (notificationId : Int)
deriving DecidableEq, Repr

/-! ### Request construction (`_read` URL, `_get_auth`, `_prepare_header`) -/

/-- Python code-point slicing `s[n:]` (`String.data` is the code-point list). -/
def pyDropCp (s : String) (n : Nat) : String := String.mk (s.data.drop n)

/-- The URL built by `Client._read` (lines 109-119): note the format string
always appends `?ip={ip}`, rendering `None` when no ip is configured. -/
def Client.readUrl (c : Client) (api_path ns : String) (nt : NamespaceType) :
    String :=
  let _namespace := ns
  let _namespace :=
    if nt ≠ NamespaceType.PROPERTIES then _namespace ++ "." ++ nt.value
    else _namespace
  c.config_server_url ++ "/" ++ api_path ++ "/" ++ c.app_id ++ "/" ++
    c.cluster_name ++ "/" ++ _namespace ++ "?ip=" ++ pyStr c.ip

/-- `Client._get_auth(url)` (lines 68-73), with the wall-clock millisecond
string `ms` passed explicitly. Only called when a secret is present;
`secret.getD ""` extracts it. -/
def Client.get_auth (c : Client) (ms : String) (url : String) :
    String × String :=
  let uri := pyDropCp url c.config_server_url.data.length
  let sign := _signature ms uri (c.secret.getD "")
  (ms, sign)

/-- `Client._prepare_header(url)` (lines 75-82), with the millisecond
string `ms` passed explicitly. -/
def Client.prepare_header (c : Client) (ms : String) (url : String) :
    List (String × String) :=
  if !(pyTruthy c.secret) then []
  else
    let (ms, sign) := c.get_auth ms url
    [("Authorization", "Apollo " ++ c.app_id ++ ":" ++ sign),
     ("Timestamp", ms)]

/-! ### Client operations with abstracted transport

Each operation takes the `ApoServer` transport and returns its result plus
the ordered list of HTTP requests issued; state-mutating operations return
the new `Client` as well. -/

/-- The status check of `Client._read` (lines 125-127): any non-200 status
raises an exception carrying the status code and raw body text, otherwise
the parsed JSON body is returned. -/
def checkStatus {α : Type} (r : HttpResp α) : Except ApoError α :=
  if r.status_code ≠ 200 then .error (.reqError r.status_code r.text)
  else .ok r.json

/-- `Client.read_namespace_with_cache` (lines 129-146):
`_read("configfiles/json", ...)`, whose JSON body is directly the
configuration mapping. -/
def Client.read_namespace_with_cache (_c : Client) (srv : ApoServer)
    (ns : String) (nt : NamespaceType) :
    Except ApoError Configurations × List ReadEvent :=
  (checkStatus (srv.cachedResp ns nt), [.cachedRead ns nt])

/-- `Client.read_namespace_without_cache` (lines 148-166):
`_read("configs", ...)`, whose JSON body is the envelope. -/
def Client.read_namespace_without_cache (_c : Client) (srv : ApoServer)
    (ns : String) (nt : NamespaceType) :
    Except ApoError ConfigEnvelope × List ReadEvent :=
  (checkStatus (srv.uncachedResp ns nt), [.uncachedRead ns nt])

/-- `Client.update` (lines 84-104). Note the source: when `call_cache_api`
is true it stores the cached-endpoint body under `root_key` and then
UNCONDITIONALLY overwrites it with the uncached-endpoint
`["configurations"]`; an exception at either read propagates, leaving the
state reached so far. -/
def Client.update (c : Client) (srv : ApoServer) (ns : String)
    (nt : NamespaceType) (call_cache_api : Bool) :
    Client × Except ApoError Unit × List ReadEvent :=
  let root_key := ns ++ "." ++ nt.value
  if call_cache_api then
    match c.read_namespace_with_cache srv ns nt with
    | (.error e, evs) => (c, .error e, evs)
    | (.ok cfg, evs) =>
      let c1 := { c with cache := dictInsert c.cache root_key cfg }
      match c1.read_namespace_without_cache srv ns nt with
      | (.error e, evs2) => (c1, .error e, evs ++ evs2)
      | (.ok env, evs2) =>
        ({ c1 with cache := dictInsert c1.cache root_key env.configurations },
         .ok (), evs ++ evs2)
  else
    match c.read_namespace_without_cache srv ns nt with
    | (.error e, evs) => (c, .error e, evs)
    | (.ok env, evs) =>
      ({ c with cache := dictInsert c.cache root_key env.configurations },
       .ok (), evs)

/-- `Client.get` (lines 168-200). With `call_cache_api` false it returns
straight from a live uncached read; otherwise it lazily populates the cache
entry via `update` when absent and then subscripts `self.cache[root_key]`
(a `KeyError` if somehow absent) and calls `.get(key, default)` on it. -/
def Client.get (c : Client) (srv : ApoServer) (key : String)
    (default : Option String) (ns : String) (nt : NamespaceType)
    (call_cache_api : Bool) :
    Client × Except ApoError (Option String) × List ReadEvent :=
  if !call_cache_api then
    match c.read_namespace_without_cache srv ns nt with
    | (.error e, evs) => (c, .error e, evs)
    | (.ok env, evs) => (c, .ok (pyGet env.configurations key default), evs)
  else
    let root_key := ns ++ "." ++ nt.value
    match (if dictContains c.cache root_key
           then (c, Except.ok (), ([] : List ReadEvent))
           else c.update srv ns nt call_cache_api) with
    | (c1, .error e, evs) => (c1, .error e, evs)
    | (c1, .ok _, evs) =>
      match dictGet? c1.cache root_key with
      | none => (c1, .error (.keyError root_key), evs)
      | some cfg => (c1, .ok (pyGet cfg key default), evs)

/-- The notification id `Client._read_notification` sends for a namespace
(lines 212-225): the remembered id, or the sentinel `-1` when never
observed. -/
def sentNotificationId (c : Client) (ns : String) : Int :=
  match dictGet? c.read_notification_cache ns with
  | some v => v
  | none => -1

/-- `Client._read_notification` (lines 202-251): long-poll carrying the
last-known notification id; `304` returns the empty list, any other
non-200 status raises, `200` returns the parsed change notices. -/
def Client.read_notification (c : Client) (srv : ApoServer) (ns : String) :
    Except ApoError (List NotificationMsg) × List ReadEvent :=
  let nid := sentNotificationId c ns
  let r := srv.notifResp ns nid
  if r.status_code = 304 then (.ok [], [.notifPoll ns nid])
  else if r.status_code ≠ 200 then
    (.error (.reqError r.status_code r.text), [.notifPoll ns nid])
  else (.ok r.json, [.notifPoll ns nid])

/-- The `for msg in notification_msgs` loop of
`Client.read_notification_and_update` (lines 261-265): for each notice,
`update` with `call_cache_api=True` on the POLLED namespace, then record
the notice's `notificationId` under the polled namespace. An exception
stops the loop mid-state. -/
def updateLoop (srv : ApoServer) (ns : String) (nt : NamespaceType) :
    Client → List NotificationMsg →
    Client × Except ApoError Unit × List ReadEvent
  | c, [] => (c, .ok (), [])
  | c, msg :: rest =>
    match c.update srv ns nt true with
    | (c1, .error e, evs) => (c1, .error e, evs)
    | (c1, .ok _, evs) =>
      let notif2 := dictInsert c1.read_notification_cache ns msg.notificationId
      let c2 := { c1 with read_notification_cache := notif2 }
      match updateLoop srv ns nt c2 rest with
      | (c3, res, evs2) => (c3, res, evs ++ evs2)

/-- `Client.read_notification_and_update` (lines 253-265). -/
def Client.read_notification_and_update (c : Client) (srv : ApoServer)
    (ns : String) (nt : NamespaceType) :
    Client × Except ApoError Unit × List ReadEvent :=
  match c.read_notification srv ns with
  | (.error e, evs) => (c, .error e, evs)
  | (.ok msgs, evs) =>
    if msgs.length = 0 then (c, .ok (), evs)
    else
      match updateLoop srv ns nt c msgs with
      | (c1, res, evs2) => (c1, res, evs ++ evs2)

/-! ### Dictionary lemmas -/

/-- Looking up the just-assigned key gives the just-assigned value. -/
theorem dictGet?_insert_self {α : Type} (d : List (String × α)) (k : String)
    (v : α) : dictGet? (dictInsert d k v) k = some v := by
  induction d with
  | nil => simp [dictInsert, dictGet?]
  | cons hd tl ih =>
    obtain ⟨k', v'⟩ := hd
    by_cases h : k' = k
    · simp [dictInsert, dictGet?, h]
    · simp [dictInsert, dictGet?, h, ih]

/-- Assignment to one key leaves every other key's lookup unchanged. -/
theorem dictGet?_insert_ne {α : Type} (d : List (String × α)) (k k2 : String)
    (v : α) (h : k2 ≠ k) : dictGet? (dictInsert d k v) k2 = dictGet? d k2 := by
  induction d with
  | nil => simp [dictInsert, dictGet?, Ne.symm h]
  | cons hd tl ih =>
    obtain ⟨k', v'⟩ := hd
    by_cases hk : k' = k
    · subst hk
      simp [dictInsert, dictGet?, Ne.symm h]
    · simp [dictInsert, dictGet?, hk, ih]

/-- Dropping the length of a prefix recovers the rest of the string. -/
theorem pyDropCp_append (s t : String) : pyDropCp (s ++ t) s.length = t := by
  obtain ⟨ls⟩ := s
  obtain ⟨lt⟩ := t
  simp [pyDropCp, String.data_append, String.length]

/-! ### Concrete fixtures used by witnesses and counterexamples -/

/-- A client fresh out of the constructor, with no ip and no secret. -/
def c0 : Client :=
  { config_server_url := "http://h", app_id := "app1",
    cluster_name := "default", ip := none, secret := none, timeout := 90,
    cache := [], read_notification_cache := [] }

/-- `c0` with the secret `"abc"` configured. -/
def cSec : Client := { c0 with secret := some "abc" }

/-- `c0` with a pre-existing cache entry for `application.properties`. -/
def cPre : Client :=
  { c0 with cache := [("application.properties", [("k", "old")])] }

/-- The envelope the healthy uncached endpoint returns. -/
def envA : ConfigEnvelope :=
  { appId := "app1", cluster := "default", namespaceName := "application",
    configurations := [("k", "uncached")], releaseKey := "r1" }

/-- A healthy server: both config endpoints answer 200 (with distinct
mappings), the long poll answers 304 (nothing changed). -/
def srvA : ApoServer :=
  { cachedResp := fun _ _ =>
      { status_code := 200, text := "", json := [("k", "cached")] },
    uncachedResp := fun _ _ =>
      { status_code := 200, text := "", json := envA },
    notifResp := fun _ _ => { status_code := 304, text := "", json := [] } }

/-- A server whose cached endpoint answers 200 but whose uncached endpoint
and long poll fail with 500. -/
def srvFail : ApoServer :=
  { cachedResp := fun _ _ =>
      { status_code := 200, text := "", json := [("k", "cached")] },
    uncachedResp := fun _ _ =>
      { status_code := 500, text := "boom", json := envA },
    notifResp := fun _ _ =>
      { status_code := 500, text := "poll-boom", json := [] } }

/-- A server whose long poll answers 200 with one change notice. -/
def srvN : ApoServer :=
  { cachedResp := fun _ _ =>
      { status_code := 200, text := "", json := [("k", "cached")] },
    uncachedResp := fun _ _ =>
      { status_code := 200, text := "", json := envA },
    notifResp := fun _ _ =>
      { status_code := 200, text := "",
        json := [{ namespaceName := "application", notificationId := 17135 }] } }

/-! ### Claim theorems -/

/-- C1 counterexample: with `call_cache_api = true` the update performs TWO
reads (cached then uncached), not one, and the final cache entry is the
uncached endpoint's mapping, not the mapping returned by the cached read
the flag selected. -/
theorem C1_counterexample :
    (c0.update srvA "application" NamespaceType.PROPERTIES true).2.2
      = [ReadEvent.cachedRead "application" NamespaceType.PROPERTIES,
         ReadEvent.uncachedRead "application" NamespaceType.PROPERTIES] ∧
    (srvA.cachedResp "application" NamespaceType.PROPERTIES).json
      = [("k", "cached")] ∧
    dictGet? (c0.update srvA "application" NamespaceType.PROPERTIES true).1.cache
        "application.properties"
      = some [("k", "uncached")] := by decide

/-- C1 (amended): `update` always ends by replacing the cache entry for the
namespace identity, wholesale, with the configurations of an
uncached-endpoint read; when the endpoint flag is true it additionally
performs a cached-endpoint read FIRST (two reads in total, cached then
uncached), and when it is false exactly one uncached read is performed. -/
theorem C1_amended (c : Client) (srv : ApoServer) (ns : String)
    (nt : NamespaceType) (flag : Bool)
    (hu : (srv.uncachedResp ns nt).status_code = 200)
    (hc : flag = true → (srv.cachedResp ns nt).status_code = 200) :
    (c.update srv ns nt flag).2.1 = .ok () ∧
    dictGet? (c.update srv ns nt flag).1.cache (ns ++ "." ++ nt.value)
      = some (srv.uncachedResp ns nt).json.configurations ∧
    (c.update srv ns nt flag).2.2
      = (if flag then
           [ReadEvent.cachedRead ns nt, ReadEvent.uncachedRead ns nt]
         else [ReadEvent.uncachedRead ns nt]) := by
  cases flag with
  | false =>
    simp [Client.update, Client.read_namespace_without_cache, checkStatus,
      hu, dictGet?_insert_self]
  | true =>
    have hc2 := hc rfl
    simp [Client.update, Client.read_namespace_with_cache,
      Client.read_namespace_without_cache, checkStatus, hu, hc2,
      dictGet?_insert_self]

/-- C1 (amended) witness at a concrete client and server. -/
theorem C1_amended_witness :
    (c0.update srvA "application" NamespaceType.PROPERTIES true).2.1
      = .ok () ∧
    dictGet? (c0.update srvA "application" NamespaceType.PROPERTIES true).1.cache
        ("application" ++ "." ++ NamespaceType.PROPERTIES.value)
      = some (srvA.uncachedResp "application"
          NamespaceType.PROPERTIES).json.configurations ∧
    (c0.update srvA "application" NamespaceType.PROPERTIES true).2.2
      = (if true then
           [ReadEvent.cachedRead "application" NamespaceType.PROPERTIES,
            ReadEvent.uncachedRead "application" NamespaceType.PROPERTIES]
         else [ReadEvent.uncachedRead "application" NamespaceType.PROPERTIES]) :=
  C1_amended c0 srvA "application" NamespaceType.PROPERTIES true (by decide)
    (fun _ => by decide)

/-- C2 counterexample: with `call_cache_api = true`, if the cached read
succeeds and the uncached read then fails, the failed refresh does NOT
leave the pre-existing cache entry untouched — it leaves the cached read's
mapping there. -/
theorem C2_counterexample :
    dictGet? cPre.cache "application.properties" = some [("k", "old")] ∧
    (cPre.update srvFail "application" NamespaceType.PROPERTIES true).2.1
      = .error (.reqError 500 "boom") ∧
    dictGet? (cPre.update srvFail "application"
        NamespaceType.PROPERTIES true).1.cache "application.properties"
      = some [("k", "cached")] := by decide

/-- C2 (amended): a refresh that fails with a Request Error leaves the
whole client state unchanged when the endpoint flag is false, and likewise
when the flag is true and already the cached read fails; but when the flag
is true, the cached read succeeds and the uncached read then fails, the
cache entry for the namespace identity is left holding the cached read's
mapping (not its pre-call value). -/
theorem C2_amended (c : Client) (srv : ApoServer) (ns : String)
    (nt : NamespaceType) :
    ((srv.uncachedResp ns nt).status_code ≠ 200 →
      (c.update srv ns nt false).1 = c ∧
      (c.update srv ns nt false).2.1
        = .error (.reqError (srv.uncachedResp ns nt).status_code
            (srv.uncachedResp ns nt).text)) ∧
    ((srv.cachedResp ns nt).status_code ≠ 200 →
      (c.update srv ns nt true).1 = c ∧
      (c.update srv ns nt true).2.1
        = .error (.reqError (srv.cachedResp ns nt).status_code
            (srv.cachedResp ns nt).text)) ∧
    ((srv.cachedResp ns nt).status_code = 200 →
     (srv.uncachedResp ns nt).status_code ≠ 200 →
      (c.update srv ns nt true).1.cache
        = dictInsert c.cache (ns ++ "." ++ nt.value)
            (srv.cachedResp ns nt).json ∧
      (c.update srv ns nt true).2.1
        = .error (.reqError (srv.uncachedResp ns nt).status_code
            (srv.uncachedResp ns nt).text)) := by
  refine ⟨fun h => ?_, fun h => ?_, fun h1 h2 => ?_⟩
  · simp [Client.update, Client.read_namespace_without_cache, checkStatus, h]
  · simp [Client.update, Client.read_namespace_with_cache, checkStatus, h]
  · simp [Client.update, Client.read_namespace_with_cache,
      Client.read_namespace_without_cache, checkStatus, h1, h2]

/-- C2 (amended) witness: the third, state-corrupting case at a concrete
client and server. -/
theorem C2_amended_witness :
    (cPre.update srvFail "application" NamespaceType.PROPERTIES true).1.cache
      = dictInsert cPre.cache
          ("application" ++ "." ++ NamespaceType.PROPERTIES.value)
          (srvFail.cachedResp "application" NamespaceType.PROPERTIES).json ∧
    (cPre.update srvFail "application" NamespaceType.PROPERTIES true).2.1
      = .error (.reqError
          (srvFail.uncachedResp "application" NamespaceType.PROPERTIES).status_code
          (srvFail.uncachedResp "application" NamespaceType.PROPERTIES).text) :=
  (C2_amended cPre srvFail "application" NamespaceType.PROPERTIES).2.2
    (by decide) (by decide)

/-- C3: when the notification long-poll answers 304, poll-and-refresh
returns without raising and the whole client state — cache mapping and
notification-id mapping included — is exactly its pre-call value. -/
theorem C3_poll_304_no_side_effect (c : Client) (srv : ApoServer)
    (ns : String) (nt : NamespaceType)
    (h : (srv.notifResp ns (sentNotificationId c ns)).status_code = 304) :
    c.read_notification_and_update srv ns nt
      = (c, .ok (), [.notifPoll ns (sentNotificationId c ns)]) := by
  simp [Client.read_notification_and_update, Client.read_notification, h]

/-- C3 witness at a concrete client and a server answering 304. -/
theorem C3_poll_304_no_side_effect_witness :
    cPre.read_notification_and_update srvA "application"
        NamespaceType.PROPERTIES
      = (cPre, .ok (), [.notifPoll "application"
          (sentNotificationId cPre "application")]) :=
  C3_poll_304_no_side_effect cPre srvA "application" NamespaceType.PROPERTIES
    (by decide)

/-- C4: when the long poll answers 200 with exactly one change notice and
the subsequent config reads succeed, poll-and-refresh (a) performs exactly
one authoritative (uncached-endpoint) refresh read for the polled
namespace — the full request trace being the poll, one cached read and one
uncached read — (b) sets the notification id recorded for the polled
namespace to the notice's `notificationId`, and (c) leaves the cache entry
of every other namespace identity and the notification id of every other
namespace unchanged. -/
theorem C4_poll_200_one_notice (c : Client) (srv : ApoServer) (ns : String)
    (nt : NamespaceType) (msg : NotificationMsg)
    (h200 : (srv.notifResp ns (sentNotificationId c ns)).status_code = 200)
    (hmsgs : (srv.notifResp ns (sentNotificationId c ns)).json = [msg])
    (hc : (srv.cachedResp ns nt).status_code = 200)
    (hu : (srv.uncachedResp ns nt).status_code = 200) :
    (c.read_notification_and_update srv ns nt).2.2
      = [.notifPoll ns (sentNotificationId c ns),
         .cachedRead ns nt, .uncachedRead ns nt] ∧
    ((c.read_notification_and_update srv ns nt).2.2.count
        (ReadEvent.uncachedRead ns nt)) = 1 ∧
    dictGet?
        (c.read_notification_and_update srv ns nt).1.read_notification_cache
        ns
      = some msg.notificationId ∧
    (∀ k, k ≠ ns ++ "." ++ nt.value →
      dictGet? (c.read_notification_and_update srv ns nt).1.cache k
        = dictGet? c.cache k) ∧
    (∀ n2, n2 ≠ ns →
      dictGet?
          (c.read_notification_and_update srv ns nt).1.read_notification_cache
          n2
        = dictGet? c.read_notification_cache n2) ∧
    (c.read_notification_and_update srv ns nt).2.1 = .ok () := by
  have h304 : ¬ (srv.notifResp ns (sentNotificationId c ns)).status_code = 304 := by
    rw [h200]; decide
  refine ⟨?_, ?_, ?_, ?_, ?_, ?_⟩ <;>
    simp [Client.read_notification_and_update, Client.read_notification,
      h200, h304, hmsgs, updateLoop, Client.update,
      Client.read_namespace_with_cache, Client.read_namespace_without_cache,
      checkStatus, hc, hu, dictGet?_insert_self, dictGet?_insert_ne,
      List.count_cons]
  · intro k hk
    rw [dictGet?_insert_ne _ _ _ _ hk, dictGet?_insert_ne _ _ _ _ hk]
  · intro n2 hn
    rw [dictGet?_insert_ne _ _ _ _ hn]

/-- C4 witness at a concrete client and a server announcing one change. -/
theorem C4_poll_200_one_notice_witness :
    (c0.read_notification_and_update srvN "application"
        NamespaceType.PROPERTIES).2.2
      = [.notifPoll "application" (sentNotificationId c0 "application"),
         .cachedRead "application" NamespaceType.PROPERTIES,
         .uncachedRead "application" NamespaceType.PROPERTIES] ∧
    dictGet? (c0.read_notification_and_update srvN "application"
        NamespaceType.PROPERTIES).1.read_notification_cache "application"
      = some 17135 ∧
    dictGet? (c0.read_notification_and_update srvN "application"
        NamespaceType.PROPERTIES).1.cache "other.properties"
      = dictGet? c0.cache "other.properties" := by
  have h := C4_poll_200_one_notice c0 srvN "application"
    NamespaceType.PROPERTIES
    { namespaceName := "application", notificationId := 17135 }
    (by decide) (by decide) (by decide) (by decide)
  exact ⟨h.1, h.2.2.1, h.2.2.2.1 "other.properties" (by decide)⟩

set_option maxRecDepth 10000 in
/-- C5: the signature is a pure function of (timestamp, uri, secret): the
base64 (standard alphabet, padded) of the HMAC-SHA1 digest keyed by the
secret over the UTF-8 bytes of `timestamp + "\n" + uri`; and on the
reference vector (secret `"s"`, timestamp `"1"`, uri `"/x"`) it equals the
known-good value computed by an independent HMAC-SHA1 implementation. -/
theorem C5_signature_hmac_sha1 :
    (∀ ts u s, _signature ts u s
        = b64encodeStr (hmacSha1 (utf8Bytes s) (utf8Bytes (ts ++ "\n" ++ u)))) ∧
    _signature "1" "/x" "s" = "mt2my6cMYWEIO7GjeA5DC3jvHPA=" := by
  constructor
  · intro ts u s
    rfl
  · decide

/-- C6: on a request whose URL is the server origin followed by the
path+query `rest`, no `Authorization` or `Timestamp` header is prepared
when no secret is configured, and with a (non-empty) secret the prepared
header set is exactly `Authorization: Apollo <app_id>:<signature>` and
`Timestamp: <ms>`, the signature being over `rest` with that same
millisecond string. -/
theorem C6_auth_headers (c : Client) (ms rest : String) :
    (c.secret = none →
      c.prepare_header ms (c.config_server_url ++ rest) = []) ∧
    (∀ s, c.secret = some s → s ≠ "" →
      c.prepare_header ms (c.config_server_url ++ rest)
        = [("Authorization",
            "Apollo " ++ c.app_id ++ ":" ++ _signature ms rest s),
           ("Timestamp", ms)]) := by
  constructor
  · intro h
    simp [Client.prepare_header, pyTruthy, h]
  · intro s hs hne
    simp [Client.prepare_header, pyTruthy, hs, hne, Client.get_auth,
      pyDropCp_append]

/-- C6 witness: anonymous client prepares no headers; client with secret
`"abc"` prepares exactly the two headers with a shared timestamp. -/
theorem C6_auth_headers_witness :
    c0.prepare_header "1" (c0.config_server_url ++ "/x") = [] ∧
    cSec.prepare_header "1" (cSec.config_server_url ++ "/x")
      = [("Authorization",
          "Apollo " ++ cSec.app_id ++ ":" ++ _signature "1" "/x" "abc"),
         ("Timestamp", "1")] :=
  ⟨(C6_auth_headers c0 "1" "/x").1 rfl,
   (C6_auth_headers cSec "1" "/x").2 "abc" rfl (by decide)⟩

/-- C7 counterexample: with no client IP configured the request URL still
carries an `ip` query parameter — the format string renders Python's
`None` — contradicting that no ip parameter appears. -/
theorem C7_counterexample :
    c0.ip = none ∧
    c0.readUrl "configs" "application" NamespaceType.PROPERTIES
      = "http://h/configs/app1/default/application?ip=None" := by decide

/-- C7 (amended): the request URL is
`<server_url>/<api_path>/<app_id>/<cluster_name>/<wire_namespace>` where
the wire namespace is the bare name for the default (`properties`) type
and `<name>.<type>` otherwise, followed by an `ip` query parameter that is
ALWAYS present: its value is the configured client IP when one is set and
the literal string `None` otherwise. -/
theorem C7_amended (c : Client) (api_path ns : String) (nt : NamespaceType) :
    c.readUrl api_path ns nt
      = c.config_server_url ++ "/" ++ api_path ++ "/" ++ c.app_id ++ "/"
        ++ c.cluster_name ++ "/"
        ++ (if nt = NamespaceType.PROPERTIES then ns else ns ++ "." ++ nt.value)
        ++ "?ip=" ++ pyStr c.ip := by
  by_cases h : nt = NamespaceType.PROPERTIES <;> simp [Client.readUrl, h]

/-- C8: `get` with the cache-preferring flag true and no cache entry for
the namespace identity first runs `update` (lazy population) and then
looks the key up in the populated entry, whose mapping is the uncached
read's configurations: a present key yields its stored value, an absent
key yields the caller-supplied default rather than an error. -/
theorem C8_lazy_get (c : Client) (srv : ApoServer) (key : String)
    (dflt : Option String) (ns : String) (nt : NamespaceType)
    (hmiss : dictGet? c.cache (ns ++ "." ++ nt.value) = none)
    (hc : (srv.cachedResp ns nt).status_code = 200)
    (hu : (srv.uncachedResp ns nt).status_code = 200) :
    c.get srv key dflt ns nt true
      = ((c.update srv ns nt true).1,
         .ok (pyGet (srv.uncachedResp ns nt).json.configurations key dflt),
         (c.update srv ns nt true).2.2) ∧
    (dictGet? (srv.uncachedResp ns nt).json.configurations key = none →
      (c.get srv key dflt ns nt true).2.1 = .ok dflt) ∧
    (∀ v, dictGet? (srv.uncachedResp ns nt).json.configurations key = some v →
      (c.get srv key dflt ns nt true).2.1 = .ok (some v)) := by
  have h1 : c.get srv key dflt ns nt true
      = ((c.update srv ns nt true).1,
         .ok (pyGet (srv.uncachedResp ns nt).json.configurations key dflt),
         (c.update srv ns nt true).2.2) := by
    simp [Client.get, dictContains, hmiss, Client.update,
      Client.read_namespace_with_cache, Client.read_namespace_without_cache,
      checkStatus, hc, hu, dictGet?_insert_self]
  refine ⟨h1, fun habs => ?_, fun v hpres => ?_⟩
  · rw [h1]
    simp [pyGet, habs]
  · rw [h1]
    simp [pyGet, hpres]

/-- C8 witness: lazy population on an empty cache; a present key returns
its value, an absent key the supplied default. -/
theorem C8_lazy_get_witness :
    (c0.get srvA "k" (some "0") "application"
        NamespaceType.PROPERTIES true).2.1 = .ok (some "uncached") ∧
    (c0.get srvA "missing" (some "0") "application"
        NamespaceType.PROPERTIES true).2.1 = .ok (some "0") := by
  have h1 := C8_lazy_get c0 srvA "k" (some "0") "application"
    NamespaceType.PROPERTIES (by decide) (by decide) (by decide)
  have h2 := C8_lazy_get c0 srvA "missing" (some "0") "application"
    NamespaceType.PROPERTIES (by decide) (by decide) (by decide)
  exact ⟨h1.2.2 "uncached" (by decide), h2.2.1 (by decide)⟩

/-- C9: a config read fails exactly on non-200 statuses and the
notification poll exactly on statuses that are neither 200 nor 304, in
every case with a Request Error carrying the status code and the raw body
text; every status in the success set returns normally. -/
theorem C9_request_errors (c : Client) (srv : ApoServer) (ns : String)
    (nt : NamespaceType) :
    ((srv.cachedResp ns nt).status_code ≠ 200 →
      (c.read_namespace_with_cache srv ns nt).1
        = .error (.reqError (srv.cachedResp ns nt).status_code
            (srv.cachedResp ns nt).text)) ∧
    ((srv.cachedResp ns nt).status_code = 200 →
      (c.read_namespace_with_cache srv ns nt).1
        = .ok (srv.cachedResp ns nt).json) ∧
    ((srv.uncachedResp ns nt).status_code ≠ 200 →
      (c.read_namespace_without_cache srv ns nt).1
        = .error (.reqError (srv.uncachedResp ns nt).status_code
            (srv.uncachedResp ns nt).text)) ∧
    ((srv.uncachedResp ns nt).status_code = 200 →
      (c.read_namespace_without_cache srv ns nt).1
        = .ok (srv.uncachedResp ns nt).json) ∧
    ((srv.notifResp ns (sentNotificationId c ns)).status_code ≠ 200 →
     (srv.notifResp ns (sentNotificationId c ns)).status_code ≠ 304 →
      (c.read_notification srv ns).1
        = .error (.reqError
            (srv.notifResp ns (sentNotificationId c ns)).status_code
            (srv.notifResp ns (sentNotificationId c ns)).text)) ∧
    ((srv.notifResp ns (sentNotificationId c ns)).status_code = 304 →
      (c.read_notification srv ns).1 = .ok []) ∧
    ((srv.notifResp ns (sentNotificationId c ns)).status_code = 200 →
      (c.read_notification srv ns).1
        = .ok (srv.notifResp ns (sentNotificationId c ns)).json) := by
  refine ⟨fun h => ?_, fun h => ?_, fun h => ?_, fun h => ?_,
    fun h h2 => ?_, fun h => ?_, fun h => ?_⟩
  · simp [Client.read_namespace_with_cache, checkStatus, h]
  · simp [Client.read_namespace_with_cache, checkStatus, h]
  · simp [Client.read_namespace_without_cache, checkStatus, h]
  · simp [Client.read_namespace_without_cache, checkStatus, h]
  · simp [Client.read_notification, h, h2]
  · simp [Client.read_notification, h]
  · have h304 : ¬ (srv.notifResp ns (sentNotificationId c ns)).status_code
        = 304 := by rw [h]; decide
    simp [Client.read_notification, h, h304]

/-- C9 witness: a 200 cached read returns normally, a 500 uncached read
and a 500 poll fail carrying status and body, a 304 poll returns `[]`. -/
theorem C9_request_errors_witness :
    (c0.read_namespace_with_cache srvFail "application"
        NamespaceType.PROPERTIES).1 = .ok [("k", "cached")] ∧
    (c0.read_namespace_without_cache srvFail "application"
        NamespaceType.PROPERTIES).1 = .error (.reqError 500 "boom") ∧
    (c0.read_notification srvFail "application").1
      = .error (.reqError 500 "poll-boom") ∧
    (c0.read_notification srvA "application").1 = .ok [] := by
  have hf := C9_request_errors c0 srvFail "application"
    NamespaceType.PROPERTIES
  have ha := C9_request_errors c0 srvA "application" NamespaceType.PROPERTIES
  exact ⟨hf.2.1 (by decide), hf.2.2.1 (by decide),
    hf.2.2.2.2.1 (by decide) (by decide), ha.2.2.2.2.2.1 (by decide)⟩

/-- C10: `get` with the cache flag false bypasses the local cache: it
returns the key's value (or the caller's default) straight from a live
uncached-endpoint read, the client state — its cache included — is
returned unchanged, and the outcome is the same whatever the stored cache
holds (including no entry at all). -/
theorem C10_get_bypasses_cache (c : Client) (srv : ApoServer) (key : String)
    (dflt : Option String) (ns : String) (nt : NamespaceType)
    (h : (srv.uncachedResp ns nt).status_code = 200) :
    c.get srv key dflt ns nt false
      = (c, .ok (pyGet (srv.uncachedResp ns nt).json.configurations key dflt),
         [.uncachedRead ns nt]) ∧
    (∀ cache2, ({ c with cache := cache2 } : Client).get srv key dflt ns nt false
      = ({ c with cache := cache2 },
         .ok (pyGet (srv.uncachedResp ns nt).json.configurations key dflt),
         [.uncachedRead ns nt])) := by
  constructor
  · simp [Client.get, Client.read_namespace_without_cache, checkStatus, h]
  · intro cache2
    simp [Client.get, Client.read_namespace_without_cache, checkStatus, h]

/-- C10 witness: on a client with no cache entry, a bypassing `get`
returns the live value and leaves the client untouched. -/
theorem C10_get_bypasses_cache_witness :
    c0.get srvA "k" none "application" NamespaceType.PROPERTIES false
      = (c0, .ok (some "uncached"),
         [.uncachedRead "application" NamespaceType.PROPERTIES]) :=
  (C10_get_bypasses_cache c0 srvA "k" none "application"
    NamespaceType.PROPERTIES (by decide)).1
